import Mathlib

/-!
Shallow embedding of the stream-ingestion pipeline of the SAM-Project
backend (`src/backend/streaming/` and `src/backend/common/utils.py`).

Time is modelled as `ℚ` (seconds, or milliseconds for latency samples);
pixel buffers are opaque and modelled as `Nat` payload identifiers.
Python dicts are modelled as insertion-ordered association lists, and the
`asyncio` task handles (`stream_tasks`, `processing_tasks`) are modelled by
the list of session ids that currently have a live task.  Every method of
the Python classes becomes a pure function from the receiver's state (plus
an environment describing the outcome of external I/O such as
`cv2.VideoCapture`/`capture.read`) to the updated state.
-/

set_option autoImplicit false

/-- Opaque pixel buffer (`np.ndarray` in the source), modelled as an
identifier. -/
abbrev FrameData := Nat

/-! ### `common/utils.py`: `FPSCounter` (lines 129-166) -/

/-- State of `FPSCounter`: a time window (seconds) and the recorded frame
timestamps (`frame_times`). -/
structure FPSCounter where
  window_seconds : ℚ
  frame_times : List ℚ
  deriving DecidableEq

/-- `FPSCounter.__init__(window_seconds)`. -/
def FPSCounter.init (window_seconds : ℚ) : FPSCounter :=
  { window_seconds := window_seconds, frame_times := [] }

/-- `FPSCounter.tick` at wall-clock time `now`: append `now`, then keep only
the timestamps strictly newer than `now - window_seconds`. -/
def FPSCounter.tick (c : FPSCounter) (now : ℚ) : FPSCounter :=
  let times := c.frame_times ++ [now]
  let cutoff := now - c.window_seconds
  { c with frame_times := times.filter (fun t => cutoff < t) }

/-- `FPSCounter.get_fps`: `0` with fewer than two samples or a zero span,
otherwise the number of retained samples divided by the span between the
first and last retained timestamps. -/
def FPSCounter.get_fps (c : FPSCounter) : ℚ :=
  if c.frame_times.length < 2 then 0
  else
    let span := c.frame_times.getLastD 0 - c.frame_times.headD 0
    if span = 0 then 0 else (c.frame_times.length : ℚ) / span

/-! ### `common/utils.py`: `LatencyTracker` (lines 84-126) -/

/-- State of `LatencyTracker`: moving-average window size and samples. -/
structure LatencyTracker where
  window_size : Nat
  latencies : List ℚ
  total_samples : Nat
  deriving DecidableEq

/-- `LatencyTracker.__init__(window_size)`. -/
def LatencyTracker.init (window_size : Nat) : LatencyTracker :=
  { window_size := window_size, latencies := [], total_samples := 0 }

/-- `LatencyTracker.add_sample`: append the sample, bump `total_samples`,
and drop the oldest sample once the window size is exceeded. -/
def LatencyTracker.add_sample (t : LatencyTracker) (latency_ms : ℚ) : LatencyTracker :=
  let ls := t.latencies ++ [latency_ms]
  let ls := if t.window_size < ls.length then ls.drop 1 else ls
  { t with latencies := ls, total_samples := t.total_samples + 1 }

/-- `LatencyTracker.get_average`: mean of the retained samples, `0` when
empty. -/
def LatencyTracker.get_average (t : LatencyTracker) : ℚ :=
  if t.latencies = [] then 0 else t.latencies.sum / (t.latencies.length : ℚ)

/-! ### Association-list model of Python dicts -/

/-- Replace the value stored under an existing key, preserving insertion
order. -/
def updateAssoc {β : Type} : List (String × β) → String → β → List (String × β)
  | [], _, _ => []
  | p :: rest, k, v =>
    if p.1 == k then (k, v) :: rest else p :: updateAssoc rest k v

/-- Python dict assignment `d[k] = v`: replace in place when the key is
present (preserving insertion order), otherwise append at the end. -/
def insertAssoc {β : Type} (l : List (String × β)) (k : String) (v : β) :
    List (String × β) :=
  if (l.lookup k).isSome then updateAssoc l k v
  else l ++ [(k, v)]

/-- Python dict assignment on a dict whose values we only track by key
(the task dicts): record the key if it is new. -/
def insertKey (l : List String) (k : String) : List String :=
  if k ∈ l then l else l ++ [k]

/-- `del d[k]` / teardown of every entry for `k`. -/
def removeAssoc {β : Type} (l : List (String × β)) (k : String) :
    List (String × β) :=
  l.filter (fun p => p.1 != k)

/-- `del d[k]` on a key-only dict. -/
def removeKey (l : List String) (k : String) : List String :=
  l.filter (fun t => t != k)

/-! ### `streaming/frame_bus.py`: `FrameBus` -/

/-- State of `FrameBus`: per-session bounded queues of `(frame_id, frame)`
pairs and the set of sessions owning a live distribution task
(`processing_tasks`). -/
structure FrameBus where
  max_queue_size : Nat
  frame_queues : List (String × List (Nat × FrameData))
  is_running : Bool
  processing_tasks : List String
  deriving DecidableEq

/-- `FrameBus.__init__(max_queue_size)`. -/
def FrameBus.init (max_queue_size : Nat) : FrameBus :=
  { max_queue_size := max_queue_size, frame_queues := [], is_running := false,
    processing_tasks := [] }

/-- `asyncio.Queue.full()`: true iff the queue is bounded and holds at least
`maxsize` items. -/
def queueFull (maxsize : Nat) (q : List (Nat × FrameData)) : Prop :=
  0 < maxsize ∧ maxsize ≤ q.length

instance (maxsize : Nat) (q : List (Nat × FrameData)) :
    Decidable (queueFull maxsize q) := by
  unfold queueFull; infer_instance

/-- `FrameBus.start`. -/
def FrameBus.start (bus : FrameBus) : FrameBus :=
  { bus with is_running := true }

/-- `FrameBus.publish_frame(session_id, frame_id, frame)` (lines 68-101):
lazily create the session's queue and spawn its distribution task; if the
queue is full, evict the oldest entry (`get_nowait`), then enqueue the new
frame (`put_nowait`; if even then the queue were full the frame would be
dropped with a warning). -/
def FrameBus.publish_frame (bus : FrameBus) (session_id : String)
    (frame_id : Nat) (frame : FrameData) : FrameBus :=
  let bus :=
    if (bus.frame_queues.lookup session_id).isSome then bus
    else
      { bus with
        frame_queues := insertAssoc bus.frame_queues session_id [],
        processing_tasks := insertKey bus.processing_tasks session_id }
  let q := (bus.frame_queues.lookup session_id).getD []
  let q := if queueFull bus.max_queue_size q then q.drop 1 else q
  if queueFull bus.max_queue_size q then bus
  else
    let q := q ++ [(frame_id, frame)]
    { bus with frame_queues := insertAssoc bus.frame_queues session_id q }

/-- `FrameBus.unsubscribe(session_id)` (lines 167-185): cancel and await the
session's distribution task, then delete its queue. -/
def FrameBus.unsubscribe (bus : FrameBus) (session_id : String) : FrameBus :=
  { bus with
    processing_tasks := removeKey bus.processing_tasks session_id,
    frame_queues := removeAssoc bus.frame_queues session_id }

/-! ### Association-list helper lemmas -/

theorem lookup_updateAssoc_self {β : Type} (l : List (String × β)) (k : String)
    (v : β) (h : (l.lookup k).isSome) : (updateAssoc l k v).lookup k = some v := by
  induction l with
  | nil => simp [List.lookup] at h
  | cons p rest ih =>
    by_cases hpk : p.1 = k
    · have h1 : (p.1 == k) = true := beq_iff_eq.mpr hpk
      simp [updateAssoc, h1, List.lookup]
    · have h1 : (p.1 == k) = false := by simpa using hpk
      have h2 : (k == p.1) = false := by simpa using fun hh => hpk hh.symm
      simp only [updateAssoc, h1, Bool.false_eq_true, if_false, List.lookup, h2]
      apply ih
      simpa [List.lookup, h2] using h

theorem lookup_append_single_self {β : Type} (l : List (String × β)) (k : String)
    (v : β) (h : l.lookup k = none) : (l ++ [(k, v)]).lookup k = some v := by
  induction l with
  | nil => simp [List.lookup]
  | cons p rest ih =>
    by_cases hpk : k = p.1
    · have h1 : (k == p.1) = true := beq_iff_eq.mpr hpk
      simp [List.lookup, h1] at h
    · have h1 : (k == p.1) = false := by simpa using hpk
      simp only [List.lookup, h1] at h
      simpa [List.lookup, h1] using ih h

theorem lookup_insertAssoc_self {β : Type} (l : List (String × β)) (k : String)
    (v : β) : (insertAssoc l k v).lookup k = some v := by
  unfold insertAssoc
  by_cases h : (l.lookup k).isSome
  · simpa [h] using lookup_updateAssoc_self l k v h
  · have h0 : l.lookup k = none := Option.not_isSome_iff_eq_none.mp h
    simpa [h] using lookup_append_single_self l k v h0

theorem lookup_removeAssoc_self {β : Type} (l : List (String × β)) (k : String) :
    (removeAssoc l k).lookup k = none := by
  induction l with
  | nil => rfl
  | cons p rest ih =>
    by_cases hpk : p.1 = k
    · have h1 : (p.1 != k) = false := by simp [bne, hpk]
      simpa [removeAssoc, List.filter, h1] using ih
    · have h1 : (p.1 != k) = true := by simp [bne, hpk]
      have h2 : (k == p.1) = false := by simpa using fun hh => hpk hh.symm
      simpa [removeAssoc, List.filter, h1, List.lookup, h2] using ih

/-! ### `streaming/rtsp_reader.py`: `RTSPReader` -/

/-- State of `RTSPReader`.  `capture` models `self.capture`:
`none` when it is `None`, `some b` when the `cv2.VideoCapture` handle is
present with `isOpened() = b`. -/
structure RTSPReader where
  session_id : String
  url : String
  fps : Nat
  username : Option String
  password : Option String
  is_webcam : Bool
  reconnect_delay : ℚ
  max_reconnect_attempts : Nat
  capture : Option Bool
  is_connected : Bool
  is_running : Bool
  fps_counter : FPSCounter
  latency_tracker : LatencyTracker
  total_frames : Nat
  dropped_frames : Nat
  reconnect_attempts : Nat
  deriving DecidableEq

/-- `RTSPReader.__init__` (lines 39-83). -/
def RTSPReader.init (session_id url : String) (fps : Nat)
    (username password : Option String) (is_webcam : Bool)
    (reconnect_delay : ℚ) (max_reconnect_attempts : Nat) : RTSPReader :=
  { session_id := session_id, url := url, fps := fps,
    username := username, password := password, is_webcam := is_webcam,
    reconnect_delay := reconnect_delay,
    max_reconnect_attempts := max_reconnect_attempts,
    capture := none, is_connected := false, is_running := false,
    fps_counter := FPSCounter.init 1, latency_tracker := LatencyTracker.init 100,
    total_frames := 0, dropped_frames := 0, reconnect_attempts := 0 }

/-- Outcome of the external I/O performed by one `read_frame` call:
the wall clock, whether a `cv2.VideoCapture` opened on this attempt
(`connect_ok`), the result of `capture.read` (`none` for `ret = False`),
and the wall-clock milliseconds the blocking read took. -/
structure ReadEnv where
  now : ℚ
  connect_ok : Bool
  read_result : Option FrameData
  read_ms : ℚ
  deriving DecidableEq

/-- `RTSPReader._connect` (lines 96-133), given whether the source opens.
Returns the updated reader and `true` on success (`false` models the
raised `ConnectionError`: `capture` is assigned the unopened handle and
`is_connected` is cleared before re-raising).  On success the handle is
stored, `is_connected` is set, and `reconnect_attempts` resets to `0`. -/
def RTSPReader.connectStep (r : RTSPReader) (connect_ok : Bool) :
    RTSPReader × Bool :=
  if connect_ok then
    ({ r with capture := some true, is_connected := true,
              reconnect_attempts := 0 }, true)
  else
    ({ r with capture := some false, is_connected := false }, false)

/-- `RTSPReader._disconnect` (lines 135-141): release the handle. -/
def RTSPReader.disconnect (r : RTSPReader) : RTSPReader :=
  { r with capture := none, is_connected := false }

/-- `RTSPReader.start` (lines 85-88). -/
def RTSPReader.start (r : RTSPReader) (connect_ok : Bool) : RTSPReader × Bool :=
  ({ r with is_running := true }).connectStep connect_ok

/-- `RTSPReader.stop` (lines 90-94). -/
def RTSPReader.stop (r : RTSPReader) : RTSPReader :=
  ({ r with is_running := false }).disconnect

/-- `RTSPReader._reconnect` (lines 143-166).  Returns the updated reader,
the boolean result of the call, and whether a connect attempt was actually
made on this call (false once the budget is exhausted). -/
def RTSPReader.reconnectStep (r : RTSPReader) (connect_ok : Bool) :
    RTSPReader × Bool × Bool :=
  if r.max_reconnect_attempts ≤ r.reconnect_attempts then (r, false, false)
  else
    let r := { r with reconnect_attempts := r.reconnect_attempts + 1 }
    let r := r.disconnect
    let (r, ok) := r.connectStep connect_ok
    (r, ok, true)

/-- `RTSPReader.read_frame` (lines 168-207).  Returns the updated reader,
the frame (or `none`), and whether this call made a connect attempt. -/
def RTSPReader.read_frame (r : RTSPReader) (env : ReadEnv) :
    RTSPReader × Option FrameData × Bool :=
  if ¬ r.is_connected ∨ r.capture = none then
    if r.is_running then
      let (r, _, att) := r.reconnectStep env.connect_ok
      (r, none, att)
    else (r, none, false)
  else
    match env.read_result with
    | none => ({ r with is_connected := false }, none, false)
    | some f =>
      let r := { r with total_frames := r.total_frames + 1,
                        fps_counter := r.fps_counter.tick env.now }
      let r := { r with latency_tracker := r.latency_tracker.add_sample env.read_ms }
      (r, some f, false)

/-- `RTSPReader.get_current_fps` (lines 209-211). -/
def RTSPReader.get_current_fps (r : RTSPReader) : ℚ :=
  r.fps_counter.get_fps

/-- `RTSPReader.get_average_latency` (lines 213-215). -/
def RTSPReader.get_average_latency (r : RTSPReader) : ℚ :=
  r.latency_tracker.get_average

/-- Run a sequence of `_reconnect` calls with the given connect outcomes,
counting how many connect attempts are made in total. -/
def RTSPReader.runReconnects : RTSPReader → List Bool → RTSPReader × Nat
  | r, [] => (r, 0)
  | r, ok :: rest =>
    let s := r.reconnectStep ok
    let t := s.1.runReconnects rest
    (t.1, (if s.2.2 then 1 else 0) + t.2)

/-! ### `streaming/stream_manager.py`: `StreamManager` -/

/-- The camera configuration dictionary consumed by
`StreamManager.start_stream`; each field models `camera_config.get(...)`
(`none` when the key is absent). -/
structure CameraConfig where
  camera_type : Option String
  url : Option String
  fps : Option Nat
  username : Option String
  password : Option String
  deriving DecidableEq

/-- The `ValueError`s raised by `StreamManager`, distinguished by their
message. -/
inductive StreamError where
  /-- `"{camera_type} camera requires URL"` -/
  | invalidConfiguration (camera_type : String)
  /-- `"Unsupported camera type: {camera_type}"` -/
  | unsupportedCameraType (camera_type : String)
  /-- `"Stream {session_id} not found"` -/
  | unknownSession (session_id : String)
  deriving DecidableEq

/-- `common/models.py` `StreamMetrics` (the fields `get_stream_metrics`
fills). -/
structure StreamMetrics where
  fps : ℚ
  latency_ms : ℚ
  dropped_frames : Nat
  total_frames : Nat
  deriving DecidableEq

/-- State of `StreamManager`: the registry `streams`, the supervising
capture tasks (`stream_tasks`, by session id), the bus, the running flag and
the global frame counter. -/
structure StreamManager where
  streams : List (String × RTSPReader)
  stream_tasks : List String
  frame_bus : FrameBus
  is_running : Bool
  total_frames_processed : Nat
  deriving DecidableEq

/-- `StreamManager.__init__` (lines 33-40): empty registry, a `FrameBus()`
with its default capacity of 2. -/
def StreamManager.init : StreamManager :=
  { streams := [], stream_tasks := [], frame_bus := FrameBus.init 2,
    is_running := false, total_frames_processed := 0 }

/-- `StreamManager.start` (lines 42-46). -/
def StreamManager.start (m : StreamManager) : StreamManager :=
  { m with is_running := true, frame_bus := m.frame_bus.start }

/-- `StreamManager.stop_stream(session_id)` (lines 109-135).  A raised
`ValueError` is modelled by the `Option StreamError` component; the state
component carries whatever mutations happened before the raise (none, here:
the check precedes every mutation).  On success the capture task is
cancelled and awaited, the reader stopped, and the registry entry deleted.
Note that the frame bus is left untouched. -/
def StreamManager.stop_stream (m : StreamManager) (session_id : String) :
    StreamManager × Option StreamError :=
  if (m.streams.lookup session_id).isNone then
    (m, some (StreamError.unknownSession session_id))
  else
    let m := { m with stream_tasks := removeKey m.stream_tasks session_id }
    let m := { m with streams :=
      (m.streams.map (fun (p : String × RTSPReader) =>
        if p.1 == session_id then (p.1, p.2.stop) else p)) }
    let m := { m with streams := removeAssoc m.streams session_id }
    (m, none)

/-- Lines 79-99 of `start_stream`: construct the reader for the camera
type, or raise.  `rtsp`/`http` require a truthy `url` (in Python an absent
key and the empty string both fail the `if not camera_url` check);
`webcam` uses device index `"0"`; anything else is unsupported.  The
constructor defaults `reconnect_delay=2.0`, `max_reconnect_attempts=10`. -/
def readerOfConfig (session_id : String) (cfg : CameraConfig) :
    Except StreamError RTSPReader :=
  let camera_type := cfg.camera_type.getD "webcam"
  let fps := cfg.fps.getD 30
  if camera_type = "rtsp" ∨ camera_type = "http" then
    match cfg.url with
    | none => Except.error (StreamError.invalidConfiguration camera_type)
    | some u =>
      if u = "" then Except.error (StreamError.invalidConfiguration camera_type)
      else Except.ok (RTSPReader.init session_id u fps cfg.username cfg.password
        false 2 10)
  else if camera_type = "webcam" then
    Except.ok (RTSPReader.init session_id "0" fps none none true 2 10)
  else Except.error (StreamError.unsupportedCameraType camera_type)

/-- `StreamManager.start_stream(session_id, camera_config)` (lines 60-107):
stop the session first when it already exists, build the reader, register
it, and spawn the supervising `_stream_loop` task. -/
def StreamManager.start_stream (m : StreamManager) (session_id : String)
    (cfg : CameraConfig) : StreamManager × Option StreamError :=
  let m :=
    if (m.streams.lookup session_id).isSome then (m.stop_stream session_id).1
    else m
  match readerOfConfig session_id cfg with
  | Except.error e => (m, some e)
  | Except.ok reader =>
    let m := { m with streams := insertAssoc m.streams session_id reader }
    let m := { m with stream_tasks := insertKey m.stream_tasks session_id }
    (m, none)

/-- `StreamManager.get_stream_metrics` (lines 179-198). -/
def StreamManager.get_stream_metrics (m : StreamManager) (session_id : String) :
    Option StreamMetrics :=
  match m.streams.lookup session_id with
  | none => none
  | some reader => some
    { fps := reader.get_current_fps,
      latency_ms := reader.get_average_latency,
      dropped_frames := reader.dropped_frames,
      total_frames := reader.total_frames }

/-- `StreamManager.get_active_stream_count` (lines 200-207). -/
def StreamManager.get_active_stream_count (m : StreamManager) : Nat :=
  m.streams.length

/-- The `await reader.start()` at the top of `_stream_loop` (line 146),
propagated through the registry (the loop's `reader` aliases the registry
entry). -/
def StreamManager.streamLoopInit (m : StreamManager) (session_id : String)
    (connect_ok : Bool) : StreamManager :=
  match m.streams.lookup session_id with
  | none => m
  | some r =>
    { m with streams := insertAssoc m.streams session_id ((r.start connect_ok).1) }

/-- One iteration of the `while self.is_running` body of
`StreamManager._stream_loop` (lines 149-170), for the registry-backed
reader: read a frame; on `None` just sleep and retry; on success increment
`frame_id`, publish to the bus, and bump `total_frames_processed`.
Returns the manager and the loop's `frame_id` counter. -/
def StreamManager.streamLoopIter (m : StreamManager) (session_id : String)
    (frame_id : Nat) (env : ReadEnv) : StreamManager × Nat :=
  if ¬ m.is_running then (m, frame_id)
  else
    match m.streams.lookup session_id with
    | none => (m, frame_id)
    | some reader =>
      let s := reader.read_frame env
      let m := { m with streams := insertAssoc m.streams session_id s.1 }
      match s.2.1 with
      | none => (m, frame_id)
      | some f =>
        let fid := frame_id + 1
        ({ m with frame_bus := m.frame_bus.publish_frame session_id fid f,
                  total_frames_processed := m.total_frames_processed + 1 }, fid)

/-- The successive `(frame_id, frame)` pairs `_stream_loop` passes to
`publish_frame` (lines 148-166), as a function of the outcomes of the
successive `reader.read_frame()` calls, starting from a given `frame_id`
counter value: `None` outcomes publish nothing, each successful read
publishes under the incremented counter. -/
def streamLoopPublished : Nat → List (Option FrameData) → List (Nat × FrameData)
  | _, [] => []
  | fid, none :: rest => streamLoopPublished fid rest
  | fid, some f :: rest => (fid + 1, f) :: streamLoopPublished (fid + 1) rest

/-! ### Concrete scenario: one webcam session, three frames published -/

/-- A webcam configuration at `fps = 10` (the `target_fps=10` scenario). -/
def webcamCfg : CameraConfig :=
  { camera_type := some "webcam", url := none, fps := some 10,
    username := none, password := none }

/-- Manager after `start()` and `start_stream("s", webcamCfg)`. -/
def mgrWithS : StreamManager :=
  ((StreamManager.init.start).start_stream "s" webcamCfg).1

/-- ... after the capture loop's `reader.start()` succeeds. -/
def mgrLoopReady : StreamManager := mgrWithS.streamLoopInit "s" true

/-- Environment of a successful read at time `t` producing frame payload
`k`, taking 5 ms. -/
def envAt (t : ℚ) (k : Nat) : ReadEnv :=
  { now := t, connect_ok := true, read_result := some k, read_ms := 5 }

/-- ... after three successful loop iterations (reads at 0 s, 0.1 s, 0.2 s
publishing frames 1, 2, 3) with no distribution-task drain. -/
def mgrAfter3 : StreamManager :=
  let s1 := mgrLoopReady.streamLoopIter "s" 0 (envAt 0 11)
  let s2 := s1.1.streamLoopIter "s" s1.2 (envAt (1/10) 12)
  let s3 := s2.1.streamLoopIter "s" s2.2 (envAt (2/10) 13)
  s3.1

/-- ... after `stop_stream("s")`. -/
def mgrStopped : StreamManager := (mgrAfter3.stop_stream "s").1

/-! ### Further helper lemmas -/

theorem mem_insertKey_self (l : List String) (k : String) : k ∈ insertKey l k := by
  unfold insertKey
  split
  · assumption
  · simp

theorem not_queueFull_nil (maxsize : Nat) :
    ¬ queueFull maxsize ([] : List (Nat × FrameData)) := by
  rintro ⟨h0, hle⟩
  simp at hle
  omega

theorem publish_frame_fresh (bus : FrameBus) (s : String) (fid : Nat)
    (f : FrameData) (hb : bus.frame_queues.lookup s = none) :
    (bus.publish_frame s fid f).frame_queues.lookup s = some [(fid, f)] ∧
    s ∈ (bus.publish_frame s fid f).processing_tasks ∧
    (bus.publish_frame s fid f).max_queue_size = bus.max_queue_size := by
  have h1 : (insertAssoc bus.frame_queues s ([] : List (Nat × FrameData))).lookup s
      = some [] := lookup_insertAssoc_self _ _ _
  simp only [FrameBus.publish_frame, hb, Option.isSome_none, Bool.false_eq_true,
    if_false, h1, Option.getD_some]
  rw [if_neg (not_queueFull_nil bus.max_queue_size)]
  rw [if_neg (not_queueFull_nil bus.max_queue_size)]
  simp only [List.nil_append]
  exact ⟨lookup_insertAssoc_self _ _ _, mem_insertKey_self _ _, trivial⟩

theorem publish_frame_existing (bus : FrameBus) (s : String)
    (q : List (Nat × FrameData)) (fid : Nat) (f : FrameData)
    (hq : bus.frame_queues.lookup s = some q)
    (hok : ¬ queueFull bus.max_queue_size
      (if queueFull bus.max_queue_size q then q.drop 1 else q)) :
    (bus.publish_frame s fid f).frame_queues.lookup s =
      some ((if queueFull bus.max_queue_size q then q.drop 1 else q) ++ [(fid, f)]) ∧
    (bus.publish_frame s fid f).max_queue_size = bus.max_queue_size := by
  simp only [FrameBus.publish_frame, hq, Option.isSome_some, if_true, Option.getD_some]
  rw [if_neg hok]
  exact ⟨lookup_insertAssoc_self _ _ _, rfl⟩

/-- **C7.** For every session id not present in the registry,
`stop_stream(id)` fails synchronously with the `UnknownSession` error
(`ValueError: Stream ... not found`) and the manager's state — registry,
tasks, bus queues — is unchanged: the result is exactly the original state
paired with the error. -/
theorem stop_stream_unknown_session (m : StreamManager) (s : String)
    (h : m.streams.lookup s = none) :
    m.stop_stream s = (m, some (StreamError.unknownSession s)) := by
  unfold StreamManager.stop_stream
  simp [h]

/-- Witness for C7: stopping `"missing"` on a fresh manager fails with
`UnknownSession` and changes nothing. -/
theorem stop_stream_unknown_session_witness :
    StreamManager.init.stop_stream "missing" =
      (StreamManager.init, some (StreamError.unknownSession "missing")) :=
  stop_stream_unknown_session StreamManager.init "missing" rfl

/-- **C10.** A publish for a session id with no queue in the bus — in
particular any publish arriving after `unsubscribe(id)` has completed —
silently recreates a fresh bounded queue holding the new frame and spawns a
new distribution task for the session, rather than no-opping or raising. -/
theorem publish_recreates_after_unsubscribe (bus : FrameBus) (s : String)
    (fid : Nat) (f : FrameData) (h : bus.frame_queues.lookup s = none) :
    ((bus.publish_frame s fid f).frame_queues.lookup s = some [(fid, f)] ∧
      s ∈ (bus.publish_frame s fid f).processing_tasks) ∧
    ∀ b : FrameBus,
      ((b.unsubscribe s).publish_frame s fid f).frame_queues.lookup s
          = some [(fid, f)] ∧
      s ∈ ((b.unsubscribe s).publish_frame s fid f).processing_tasks := by
  constructor
  · have hf := publish_frame_fresh bus s fid f h
    exact ⟨hf.1, hf.2.1⟩
  · intro b
    have hb : (b.unsubscribe s).frame_queues.lookup s = none :=
      lookup_removeAssoc_self _ _
    have hf := publish_frame_fresh (b.unsubscribe s) s fid f hb
    exact ⟨hf.1, hf.2.1⟩

/-- Witness for C10: publishing to a fresh bus (no queue for `"x"`) creates
the queue `[(1, 7)]` and a distribution task. -/
theorem publish_recreates_after_unsubscribe_witness :
    ((FrameBus.init 2).publish_frame "x" 1 7).frame_queues.lookup "x"
        = some [(1, 7)] ∧
    "x" ∈ ((FrameBus.init 2).publish_frame "x" 1 7).processing_tasks :=
  (publish_recreates_after_unsubscribe (FrameBus.init 2) "x" 1 7 rfl).1

/-- **C2.** For a session queue at capacity 2, `publish_frame` evicts
exactly the single oldest buffered frame and appends the new one (the new
frame is always the last element, the queue stays at capacity 2, and the
publisher never waits — the model is a total function); publishing frames
1, 2, 3 into an initially empty queue of capacity 2 with no consumer
draining leaves exactly `[(2, f2), (3, f3)]` in order. -/
theorem publish_frame_drop_oldest (bus : FrameBus) (s : String)
    (q : List (Nat × FrameData)) (fid : Nat) (f : FrameData)
    (hcap : bus.max_queue_size = 2) (hq : bus.frame_queues.lookup s = some q)
    (hlen : q.length = 2) :
    ((bus.publish_frame s fid f).frame_queues.lookup s
        = some (q.drop 1 ++ [(fid, f)]) ∧
      (q.drop 1 ++ [(fid, f)]).length = 2 ∧
      (q.drop 1 ++ [(fid, f)]).getLast? = some (fid, f)) ∧
    ∀ f1 f2 f3 : FrameData,
      ((((FrameBus.init 2).publish_frame s 1 f1).publish_frame s 2 f2).publish_frame
          s 3 f3).frame_queues.lookup s = some [(2, f2), (3, f3)] := by
  have hfull : queueFull bus.max_queue_size q := by
    rw [hcap]; exact ⟨by omega, by omega⟩
  have hok : ¬ queueFull bus.max_queue_size
      (if queueFull bus.max_queue_size q then q.drop 1 else q) := by
    rw [if_pos hfull, hcap]
    rintro ⟨_, hle⟩
    simp [hlen] at hle
  have hmain := publish_frame_existing bus s q fid f hq hok
  rw [if_pos hfull] at hmain
  refine ⟨⟨hmain.1, ?_, List.getLast?_concat _⟩, ?_⟩
  · simp [hlen]
  · intro f1 f2 f3
    have h1 := publish_frame_fresh (FrameBus.init 2) s 1 f1 rfl
    have hinit : (FrameBus.init 2).max_queue_size = 2 := rfl
    have hnotfull1 : ¬ queueFull ((FrameBus.init 2).publish_frame s 1 f1).max_queue_size
        [(1, f1)] := by
      rw [h1.2.2, hinit]; rintro ⟨_, hle⟩; simp at hle
    have h2 := publish_frame_existing ((FrameBus.init 2).publish_frame s 1 f1) s
      [(1, f1)] 2 f2 h1.1 (by rw [if_neg hnotfull1]; exact hnotfull1)
    rw [if_neg hnotfull1] at h2
    have hmax2 : (((FrameBus.init 2).publish_frame s 1 f1).publish_frame s 2
        f2).max_queue_size = 2 := by rw [h2.2, h1.2.2, hinit]
    have hfull2 : queueFull (((FrameBus.init 2).publish_frame s 1 f1).publish_frame
        s 2 f2).max_queue_size [(1, f1), (2, f2)] := by
      rw [hmax2]; exact ⟨by norm_num, by simp⟩
    have hok2 : ¬ queueFull (((FrameBus.init 2).publish_frame s 1 f1).publish_frame
        s 2 f2).max_queue_size
        (if queueFull (((FrameBus.init 2).publish_frame s 1 f1).publish_frame s 2
            f2).max_queue_size [(1, f1), (2, f2)]
          then [(1, f1), (2, f2)].drop 1 else [(1, f1), (2, f2)]) := by
      rw [if_pos hfull2, hmax2]
      rintro ⟨_, hle⟩
      simp at hle
    have h3 := publish_frame_existing (((FrameBus.init 2).publish_frame s 1
      f1).publish_frame s 2 f2) s [(1, f1), (2, f2)] 3 f3 h2.1 hok2
    rw [if_pos hfull2] at h3
    simpa using h3.1

/-- A bus whose queue for `"x"` is at capacity: `[(1, 5), (2, 6)]`. -/
def witBus : FrameBus :=
  ((FrameBus.init 2).publish_frame "x" 1 5).publish_frame "x" 2 6

/-- Witness for C2: publishing frame 3 into the full queue `[(1,5),(2,6)]`
evicts frame 1 and leaves `[(2,6),(3,7)]`. -/
theorem publish_frame_drop_oldest_witness :
    (witBus.publish_frame "x" 3 7).frame_queues.lookup "x" = some [(2, 6), (3, 7)] :=
  (publish_frame_drop_oldest witBus "x" [(1, 5), (2, 6)] 3 7 (by decide)
    (by decide) rfl).1.1

theorem streamLoopPublished_fst (outs : List (Option FrameData)) :
    ∀ n : Nat, (streamLoopPublished n outs).map Prod.fst =
      List.range' (n + 1) outs.reduceOption.length := by
  induction outs with
  | nil => intro n; simp [streamLoopPublished]
  | cons o rest ih =>
    intro n
    cases o with
    | none => simp [streamLoopPublished, ih, List.reduceOption_cons_of_none]
    | some f =>
      simp [streamLoopPublished, ih, List.reduceOption_cons_of_some,
        List.range'_succ]

theorem streamLoopPublished_snd (outs : List (Option FrameData)) :
    ∀ n : Nat, (streamLoopPublished n outs).map Prod.snd = outs.reduceOption := by
  induction outs with
  | nil => intro n; simp [streamLoopPublished]
  | cons o rest ih =>
    intro n
    cases o with
    | none => simp [streamLoopPublished, ih, List.reduceOption_cons_of_none]
    | some f => simp [streamLoopPublished, ih, List.reduceOption_cons_of_some]

/-- **C5.** Within a session's capture loop (`frame_id` starts at 0 and is
incremented before each publish), the sequence numbers published across any
run of read outcomes are exactly `1, 2, ..., k` where `k` is the number of
successful reads: they start at 1, are strictly increasing with no gaps,
are never reused, and pair up in order with the successfully read frames. -/
theorem stream_loop_sequence_numbers (outs : List (Option FrameData)) :
    (streamLoopPublished 0 outs).map Prod.fst =
        List.range' 1 outs.reduceOption.length ∧
    (streamLoopPublished 0 outs).map Prod.snd = outs.reduceOption ∧
    List.Chain' (· < ·) ((streamLoopPublished 0 outs).map Prod.fst) ∧
    ((streamLoopPublished 0 outs).map Prod.fst).Nodup := by
  refine ⟨streamLoopPublished_fst outs 0, streamLoopPublished_snd outs 0, ?_, ?_⟩
  · rw [streamLoopPublished_fst]
    exact List.Pairwise.chain' (List.pairwise_lt_range' _ _)
  · rw [streamLoopPublished_fst]
    exact List.nodup_range' _ _

theorem reconnectStep_exhausted (r : RTSPReader) (ok : Bool)
    (h : r.max_reconnect_attempts ≤ r.reconnect_attempts) :
    r.reconnectStep ok = (r, false, false) := by
  unfold RTSPReader.reconnectStep
  simp [h]

theorem reconnectStep_fail_fields (r : RTSPReader)
    (h : ¬ r.max_reconnect_attempts ≤ r.reconnect_attempts) :
    ((r.reconnectStep false).1).reconnect_attempts = r.reconnect_attempts + 1 ∧
    ((r.reconnectStep false).1).max_reconnect_attempts = r.max_reconnect_attempts ∧
    (r.reconnectStep false).2.2 = true := by
  unfold RTSPReader.reconnectStep RTSPReader.disconnect RTSPReader.connectStep
  simp [h]

theorem runReconnects_count_all_false (outs : List Bool) :
    ∀ r : RTSPReader, (∀ b ∈ outs, b = false) →
      (r.runReconnects outs).2 =
        min outs.length (r.max_reconnect_attempts - r.reconnect_attempts) := by
  induction outs with
  | nil => intro r _; simp [RTSPReader.runReconnects]
  | cons b rest ih =>
    intro r hall
    have hb : b = false := hall b (List.mem_cons_self b rest)
    subst hb
    have hrest : ∀ x ∈ rest, x = false := fun x hx => hall x (List.mem_cons_of_mem _ hx)
    by_cases hc : r.max_reconnect_attempts ≤ r.reconnect_attempts
    · have hstep := reconnectStep_exhausted r false hc
      have hz : r.max_reconnect_attempts - r.reconnect_attempts = 0 :=
        Nat.sub_eq_zero_of_le hc
      simp [RTSPReader.runReconnects, hstep, ih r hrest, hz]
    · obtain ⟨h1, h2, h3⟩ := reconnectStep_fail_fields r hc
      have := ih (r.reconnectStep false).1 hrest
      rw [h1, h2] at this
      simp only [RTSPReader.runReconnects, h3, if_true, this]
      simp only [List.length_cons]
      omega

/-- A started reader for an always-unreachable RTSP source with
`max_reconnect_attempts = M` (constructor defaults otherwise). -/
def testReaderM (M : Nat) : RTSPReader :=
  { RTSPReader.init "s" "rtsp://unreachable" 30 none none false 2 M with
    is_running := true }

theorem read_frame_no_attempt_when_exhausted (r : RTSPReader) (env : ReadEnv)
    (h : r.max_reconnect_attempts ≤ r.reconnect_attempts) :
    (r.read_frame env).2.2 = false := by
  unfold RTSPReader.read_frame
  by_cases hcon : ¬ r.is_connected ∨ r.capture = none
  · rw [if_pos hcon]
    by_cases hrun : r.is_running
    · rw [if_pos hrun]
      simp [reconnectStep_exhausted r env.connect_ok h]
    · rw [if_neg hrun]
  · rw [if_neg hcon]
    cases env.read_result <;> rfl

/-- **C3.** Reconnect budget. (i) Starting from a fresh reader with budget
`M`, a run of always-failing `_reconnect` calls makes exactly
`min (calls, M)` connect attempts — never more than `M`, and exactly 3 for
`M = 3` once at least 3 calls occur; (ii) once the budget is exhausted,
`_reconnect` makes no further connect attempt and leaves the reader
unchanged; (iii) likewise `read_frame` makes no connect attempt after
exhaustion; (iv) any successful `_connect` resets the attempt counter to
zero; (v) concretely, 5 always-failing reconnect calls with `M = 3` make
exactly 3 connect attempts. -/
theorem reconnect_budget_bounded :
    (∀ (M : Nat) (outs : List Bool), (∀ b ∈ outs, b = false) →
      ((testReaderM M).runReconnects outs).2 = min outs.length M) ∧
    (∀ (r : RTSPReader) (ok : Bool), r.max_reconnect_attempts ≤ r.reconnect_attempts →
      r.reconnectStep ok = (r, false, false)) ∧
    (∀ (r : RTSPReader) (env : ReadEnv), r.max_reconnect_attempts ≤ r.reconnect_attempts →
      (r.read_frame env).2.2 = false) ∧
    (∀ r : RTSPReader, ((r.connectStep true).1).reconnect_attempts = 0) ∧
    ((testReaderM 3).runReconnects (List.replicate 5 false)).2 = 3 := by
  refine ⟨?_, reconnectStep_exhausted, read_frame_no_attempt_when_exhausted, ?_, ?_⟩
  · intro M outs hall
    have h := runReconnects_count_all_false outs (testReaderM M) hall
    simpa [testReaderM, RTSPReader.init] using h
  · intro r; rfl
  · decide

/-- Witness for C3: three always-failing reconnect calls on a fresh reader
with budget 3 make exactly `min 3 3 = 3` connect attempts. -/
theorem reconnect_budget_bounded_witness :
    ((testReaderM 3).runReconnects [false, false, false]).2 = min 3 3 :=
  reconnect_budget_bounded.1 3 [false, false, false] (by simp)

theorem connectStep_dropped (r : RTSPReader) (ok : Bool) :
    ((r.connectStep ok).1).dropped_frames = r.dropped_frames := by
  unfold RTSPReader.connectStep
  cases ok <;> rfl

theorem reconnectStep_dropped (r : RTSPReader) (ok : Bool) :
    ((r.reconnectStep ok).1).dropped_frames = r.dropped_frames := by
  unfold RTSPReader.reconnectStep RTSPReader.disconnect RTSPReader.connectStep
  by_cases h : r.max_reconnect_attempts ≤ r.reconnect_attempts
  · rw [if_pos h]
  · rw [if_neg h]
    cases ok <;> rfl

theorem read_frame_dropped (r : RTSPReader) (env : ReadEnv) :
    ((r.read_frame env).1).dropped_frames = r.dropped_frames := by
  unfold RTSPReader.read_frame
  by_cases hcon : ¬ r.is_connected ∨ r.capture = none
  · rw [if_pos hcon]
    by_cases hrun : r.is_running
    · rw [if_pos hrun]
      simpa using reconnectStep_dropped r env.connect_ok
    · rw [if_neg hrun]
  · rw [if_neg hcon]
    cases env.read_result <;> rfl

theorem stop_stream_frame_bus (m : StreamManager) (s : String) :
    ((m.stop_stream s).1).frame_bus = m.frame_bus := by
  unfold StreamManager.stop_stream
  by_cases h : (m.streams.lookup s).isNone
  · rw [if_pos h]
  · rw [if_neg h]

/-- **C1** (evidence of the cleanup gap). After the webcam scenario —
`start_stream("s")`, three frames published, then `stop_stream("s")`
returning successfully — the registry holds no entry for `"s"` and no
capture task remains, but the frame bus still holds `"s"`'s queue and its
distribution task: `stop_stream` never calls `FrameBus.unsubscribe`, and in
general it returns the frame bus completely unchanged. -/
theorem stop_stream_leaves_bus_resources :
    ((mgrAfter3.stop_stream "s").2 = none ∧
      (mgrStopped.streams.lookup "s").isNone = true ∧
      "s" ∉ mgrStopped.stream_tasks ∧
      (mgrStopped.frame_bus.frame_queues.lookup "s").isSome = true ∧
      "s" ∈ mgrStopped.frame_bus.processing_tasks) ∧
    ∀ (m : StreamManager) (s : String),
      ((m.stop_stream s).1).frame_bus = m.frame_bus :=
  ⟨by decide, stop_stream_frame_bus⟩

/-- **C8** (evidence that the metric cannot rise). No operation of
`RTSPReader` ever changes `dropped_frames` — it stays at its initial value
0 — so `get_stream_metrics` always reports `dropped_frames = 0` even when
the bus has evicted frames under backpressure: in the webcam scenario the
bus queue for `"s"` is `[(2,·),(3,·)]` (frame 1 was evicted, no consumer
drained), the reader counted `total_frames = 3`, yet the reported
`dropped_frames` is 0. -/
theorem dropped_frames_never_incremented :
    (∀ (r : RTSPReader) (env : ReadEnv),
      ((r.read_frame env).1).dropped_frames = r.dropped_frames) ∧
    (∀ (r : RTSPReader) (ok : Bool),
      ((r.reconnectStep ok).1).dropped_frames = r.dropped_frames) ∧
    (∀ (r : RTSPReader) (ok : Bool),
      ((r.start ok).1).dropped_frames = r.dropped_frames) ∧
    (∀ r : RTSPReader, r.stop.dropped_frames = r.dropped_frames) ∧
    mgrAfter3.frame_bus.frame_queues.lookup "s" = some [(2, 12), (3, 13)] ∧
    (mgrAfter3.get_stream_metrics "s").map StreamMetrics.dropped_frames = some 0 ∧
    (mgrAfter3.get_stream_metrics "s").map StreamMetrics.total_frames = some 3 := by
  refine ⟨read_frame_dropped, reconnectStep_dropped, ?_, ?_, by decide, by decide,
    by decide⟩
  · intro r ok
    exact connectStep_dropped { r with is_running := true } ok
  · intro r
    rfl

/-- Fold a list of tick times through `FPSCounter.tick`. -/
def FPSCounter.runTicks (c : FPSCounter) (ts : List ℚ) : FPSCounter :=
  ts.foldl FPSCounter.tick c

/-- Ten publish ticks spaced 100 ms apart: times 0, 0.1, ..., 0.9 s. -/
def fpsTestTicks : List ℚ := (List.range 10).map (fun i => (i : ℚ) / 10)

theorem fps_ticks_frame_times :
    ((FPSCounter.init 1).runTicks fpsTestTicks).frame_times =
      [0, 1/10, 2/10, 3/10, 4/10, 5/10, 6/10, 7/10, 8/10, 9/10] := by
  norm_num [FPSCounter.runTicks, fpsTestTicks, List.range_succ, FPSCounter.tick,
    FPSCounter.init, List.filter]

theorem fps_ticks_get_fps :
    ((FPSCounter.init 1).runTicks fpsTestTicks).get_fps = 100 / 9 := by
  rw [FPSCounter.get_fps, fps_ticks_frame_times]
  norm_num [List.getLastD]

/-- **C9 counterexample.** Recording exactly 10 ticks spaced 100 ms apart
does not yield an FPS estimate of approximately 10: the estimate is
`100/9 ≈ 11.11`, which exceeds 10 by more than 1 (so it misses even a
generous 10% tolerance). -/
theorem fps_ten_ticks_not_approx_ten :
    ((FPSCounter.init 1).runTicks fpsTestTicks).get_fps = 100 / 9 ∧
    10 + 1 < ((FPSCounter.init 1).runTicks fpsTestTicks).get_fps := by
  refine ⟨fps_ticks_get_fps, ?_⟩
  rw [fps_ticks_get_fps]
  norm_num

/-- **C9 amended.** Recording exactly 10 ticks spaced 100 ms apart yields
an FPS estimate of exactly `100/9 ≈ 11.1`: the counter divides the number
of retained samples (10) by the span between the first and last retained
timestamps (0.9 s), not by the 1-second window.  Samples older than the
trailing window are excluded: after every tick, each retained timestamp
lies strictly inside the window ending at that tick. -/
theorem fps_ten_ticks_estimate :
    ((FPSCounter.init 1).runTicks fpsTestTicks).get_fps = 100 / 9 ∧
    ∀ (c : FPSCounter) (now : ℚ),
      ((c.tick now).frame_times.all
        (fun t => decide (now - c.window_seconds < t))) = true := by
  refine ⟨fps_ticks_get_fps, ?_⟩
  intro c now
  simp only [FPSCounter.tick, List.all_eq_true]
  intro t ht
  have := List.of_mem_filter ht
  simpa using this

theorem filter_key_eq_nil {β : Type} (l : List (String × β)) (k : String)
    (h : l.lookup k = none) : l.filter (fun p => p.1 == k) = [] := by
  induction l with
  | nil => rfl
  | cons p rest ih =>
    by_cases hpk : k = p.1
    · have h1 : (k == p.1) = true := beq_iff_eq.mpr hpk
      simp [List.lookup, h1] at h
    · have h1 : (k == p.1) = false := by simpa using hpk
      have h2 : (p.1 == k) = false := by simpa using fun hh => hpk hh.symm
      simp only [List.lookup, h1] at h
      simp [List.filter, h2, ih h]

theorem insertAssoc_of_lookup_none {β : Type} (l : List (String × β)) (k : String)
    (v : β) (h : l.lookup k = none) : insertAssoc l k v = l ++ [(k, v)] := by
  unfold insertAssoc
  simp [h]

theorem count_key_append_one {β : Type} (l : List (String × β)) (k : String)
    (v : β) (h : l.lookup k = none) :
    ((l ++ [(k, v)]).filter (fun p => p.1 == k)).length = 1 := by
  rw [List.filter_append, filter_key_eq_nil l k h]
  simp

theorem not_mem_removeKey (l : List String) (k : String) : k ∉ removeKey l k := by
  intro hmem
  have := List.of_mem_filter hmem
  simp at this

theorem filter_removeKey_eq_nil (l : List String) (k : String) :
    (removeKey l k).filter (fun t => t == k) = [] := by
  rw [List.filter_eq_nil_iff]
  intro a ha
  have := List.of_mem_filter ha
  simp at this
  simp [this]

theorem count_removeKey_append_one (l : List String) (k : String) :
    ((removeKey l k ++ [k]).filter (fun t => t == k)).length = 1 := by
  rw [List.filter_append, filter_removeKey_eq_nil]
  simp

theorem stop_stream_lookup_none (m : StreamManager) (s : String) :
    ((m.stop_stream s).1).streams.lookup s = none := by
  unfold StreamManager.stop_stream
  by_cases h : (m.streams.lookup s).isNone
  · rw [if_pos h]
    exact Option.isNone_iff_eq_none.mp h
  · rw [if_neg h]
    exact lookup_removeAssoc_self _ _

theorem stop_stream_tasks_of_present (m : StreamManager) (s : String)
    (h : ¬ (m.streams.lookup s).isNone = true) :
    ((m.stop_stream s).1).stream_tasks = removeKey m.stream_tasks s := by
  unfold StreamManager.stop_stream
  rw [if_neg h]

/-- **C4.** Replace semantics of `start_stream`: for a session id that is
already active, `start_stream(id, cfg)` is literally equivalent to
`stop_stream(id)` followed by `start_stream(id, cfg)` — the internal stop
succeeds (no error), and when the second start succeeds there is afterwards
exactly one registry entry and one capture task for the id, holding the
reader built from the new configuration. -/
theorem start_stream_replace (m : StreamManager) (s : String) (cfg : CameraConfig)
    (h : (m.streams.lookup s).isSome = true) :
    m.start_stream s cfg = ((m.stop_stream s).1).start_stream s cfg ∧
    (m.stop_stream s).2 = none ∧
    ((m.start_stream s cfg).2 = none →
      (((m.start_stream s cfg).1).streams.filter (fun p => p.1 == s)).length = 1 ∧
      (((m.start_stream s cfg).1).stream_tasks.filter (fun t => t == s)).length = 1 ∧
      ∃ r, readerOfConfig s cfg = Except.ok r ∧
        ((m.start_stream s cfg).1).streams.lookup s = some r) := by
  have hnn : ¬ (m.streams.lookup s).isNone = true := by
    rcases hx : m.streams.lookup s with _ | v
    · rw [hx] at h
      simp at h
    · simp
  have hlk : ((m.stop_stream s).1).streams.lookup s = none := stop_stream_lookup_none m s
  have hstop2 : (m.stop_stream s).2 = none := by
    unfold StreamManager.stop_stream
    rw [if_neg hnn]
  have heq : m.start_stream s cfg = ((m.stop_stream s).1).start_stream s cfg := by
    unfold StreamManager.start_stream
    rw [if_pos h, if_neg (by simp [hlk])]
  refine ⟨heq, hstop2, ?_⟩
  intro hok
  rcases hrc : readerOfConfig s cfg with e | r
  · exfalso
    have : (m.start_stream s cfg).2 = some e := by
      unfold StreamManager.start_stream
      rw [if_pos h, hrc]
    rw [this] at hok
    cases hok
  · have hres : ((m.start_stream s cfg).1).streams =
        insertAssoc ((m.stop_stream s).1).streams s r ∧
        ((m.start_stream s cfg).1).stream_tasks =
          insertKey ((m.stop_stream s).1).stream_tasks s := by
      unfold StreamManager.start_stream
      rw [if_pos h, hrc]
      exact ⟨rfl, rfl⟩
    have hs1 : ((m.start_stream s cfg).1).streams =
        ((m.stop_stream s).1).streams ++ [(s, r)] := by
      rw [hres.1, insertAssoc_of_lookup_none _ _ _ hlk]
    have ht1 : ((m.start_stream s cfg).1).stream_tasks =
        removeKey m.stream_tasks s ++ [s] := by
      rw [hres.2, stop_stream_tasks_of_present m s hnn]
      unfold insertKey
      rw [if_neg (not_mem_removeKey _ _)]
    refine ⟨?_, ?_, r, rfl, ?_⟩
    · rw [hs1]
      exact count_key_append_one _ _ _ hlk
    · rw [ht1]
      exact count_removeKey_append_one _ _
    · rw [hs1]
      exact lookup_append_single_self _ _ _ hlk

/-- Witness for C4: `"s"` is active in `mgrWithS`, and restarting it equals
stop-then-start. -/
theorem start_stream_replace_witness :
    mgrWithS.start_stream "s" webcamCfg =
      ((mgrWithS.stop_stream "s").1).start_stream "s" webcamCfg :=
  (start_stream_replace mgrWithS "s" webcamCfg (by decide)).1

/-- The Python truthiness test `if not camera_url:` on the `url` entry of
the configuration dictionary: the key is absent or maps to the empty
string. -/
def CameraConfig.lacksUrl (cfg : CameraConfig) : Prop :=
  cfg.url = none ∨ cfg.url = some ""

instance (cfg : CameraConfig) : Decidable cfg.lacksUrl := by
  unfold CameraConfig.lacksUrl
  infer_instance

/-- **C6.** For a descriptor whose camera type is `rtsp` or `http`,
`start_stream` fails synchronously with the `InvalidConfiguration` error
(`ValueError: ... camera requires URL`) exactly when the descriptor lacks a
(truthy) URL; when a URL is present, no error is raised and the constructed
reader is registered under the session id. -/
theorem start_stream_network_requires_url (m : StreamManager) (s : String)
    (cfg : CameraConfig)
    (h : cfg.camera_type.getD "webcam" = "rtsp" ∨
      cfg.camera_type.getD "webcam" = "http") :
    ((m.start_stream s cfg).2 =
        some (StreamError.invalidConfiguration (cfg.camera_type.getD "webcam")) ↔
      cfg.lacksUrl) ∧
    (¬ cfg.lacksUrl →
      (m.start_stream s cfg).2 = none ∧
      ∃ u, cfg.url = some u ∧
        ((m.start_stream s cfg).1).streams.lookup s =
          some (RTSPReader.init s u (cfg.fps.getD 30) cfg.username cfg.password
            false 2 10)) := by
  rcases hu : cfg.url with _ | u
  · have hrc : readerOfConfig s cfg =
        Except.error (StreamError.invalidConfiguration (cfg.camera_type.getD "webcam")) := by
      simp only [readerOfConfig]
      rw [if_pos h, hu]
    have h2 : (m.start_stream s cfg).2 =
        some (StreamError.invalidConfiguration (cfg.camera_type.getD "webcam")) := by
      unfold StreamManager.start_stream
      rw [hrc]
    exact ⟨⟨fun _ => Or.inl hu, fun _ => h2⟩,
      fun hnl => absurd (Or.inl hu) hnl⟩
  · by_cases hem : u = ""
    · subst hem
      have hrc : readerOfConfig s cfg =
          Except.error (StreamError.invalidConfiguration (cfg.camera_type.getD "webcam")) := by
        simp only [readerOfConfig]
        rw [if_pos h, hu]
        simp
      have h2 : (m.start_stream s cfg).2 =
          some (StreamError.invalidConfiguration (cfg.camera_type.getD "webcam")) := by
        unfold StreamManager.start_stream
        rw [hrc]
      exact ⟨⟨fun _ => Or.inr hu, fun _ => h2⟩,
        fun hnl => absurd (Or.inr hu) hnl⟩
    · have hrc : readerOfConfig s cfg =
          Except.ok (RTSPReader.init s u (cfg.fps.getD 30) cfg.username
            cfg.password false 2 10) := by
        simp only [readerOfConfig]
        rw [if_pos h, hu]
        simp [hem]
      have h2 : (m.start_stream s cfg).2 = none := by
        unfold StreamManager.start_stream
        rw [hrc]
      constructor
      · constructor
        · intro habs
          rw [h2] at habs
          cases habs
        · rintro (h' | h')
          · rw [hu] at h'
            cases h'
          · rw [hu] at h'
            exact absurd (Option.some_injective _ h') hem
      · intro _
        refine ⟨h2, u, rfl, ?_⟩
        show ((m.start_stream s cfg).1).streams.lookup s = _
        unfold StreamManager.start_stream
        rw [hrc]
        exact lookup_insertAssoc_self _ _ _

/-- A valid RTSP configuration. -/
def rtspCfg : CameraConfig :=
  { camera_type := some "rtsp", url := some "rtsp://camera.local/stream",
    fps := some 15, username := none, password := none }

/-- Witness for C6: starting an rtsp session whose URL is present raises no
error. -/
theorem start_stream_network_requires_url_witness :
    (StreamManager.init.start_stream "n" rtspCfg).2 = none :=
  ((start_stream_network_requires_url StreamManager.init "n" rtspCfg
    (by decide)).2 (by decide)).1
